import Mathlib

set_option linter.all false

/-!
Shallow embedding of the dark-pool submission proxy (src/index.ts):
a model of JavaScript/JSON runtime values, the zod payment_amount
pattern, and the submit entrypoint handler with its outbound fetch.
-/

/-- Model of a JavaScript/JSON runtime value. JSON numbers are modelled as
integers, which suffices for the properties considered here; `undef` models
JavaScript `undefined` (the value of an absent object field). -/
inductive JSValue where
  | undef : JSValue
  | null : JSValue
  | bool : Bool → JSValue
  | num : Int → JSValue
  | str : String → JSValue
  | arr : List JSValue → JSValue
  | obj : List (String × JSValue) → JSValue

/-- JavaScript truthiness of a value. -/
def truthy : JSValue → Bool
  | JSValue.undef => false
  | JSValue.null => false
  | JSValue.bool b => b
  | JSValue.num n => decide (n ≠ 0)
  | JSValue.str s => decide (s ≠ "")
  | JSValue.arr _ => true
  | JSValue.obj _ => true

/-- JavaScript short-circuit disjunction `a || b`. -/
def jsOr (a b : JSValue) : JSValue := if truthy a then a else b

/-- First binding of a key in an object literal (objects produced by
JSON.parse bind each key once). -/
def lookupField : List (String × JSValue) → String → JSValue
  | [], _ => JSValue.undef
  | (k, v) :: rest, key => if k = key then v else lookupField rest key

/-- Property read on a receiver that is not null/undefined: a field of an
object, `undefined` on a primitive receiver. -/
def lookupJS : JSValue → String → JSValue
  | JSValue.obj fields, key => lookupField fields key
  | _, _ => JSValue.undef

/-- JavaScript property access `data.key`: throws a TypeError on null and
undefined receivers, otherwise yields the field (or `undefined`). -/
def getField : JSValue → String → Except String JSValue
  | JSValue.null, key =>
      Except.error ("Cannot read properties of null (reading '" ++ key ++ "')")
  | JSValue.undef, key =>
      Except.error ("Cannot read properties of undefined (reading '" ++ key ++ "')")
  | data, key => Except.ok (lookupJS data key)

/-- The validated input shape (DarkPoolSubmitInputSchema): agent_id,
target_endpoint and payment_amount are strings, request_payload is an
arbitrary JSON record forwarded verbatim. -/
structure SubmissionRequest where
  agent_id : String
  target_endpoint : String
  request_payload : JSValue
  payment_amount : String

/-- The object the handler places under `output`. Optional fields the
handler does not set are `undef` (absent); fields copied from the backend
body are copied verbatim and may hold any JSValue. -/
structure SubmissionResult where
  success : JSValue
  transaction_id : JSValue
  message : JSValue
  estimated_execution : JSValue

/-- The value returned to the framework: the output object plus the
usage accounting value (`usage.total_tokens` in the source). -/
structure HandlerReturn where
  output : SubmissionResult
  total_tokens : Nat

/-- One outbound fetch call recorded with its arguments; the JSON body is
modelled at the object level (the argument of JSON.stringify). -/
structure OutboundRequest where
  url : String
  method : String
  headers : List (String × String)
  body : JSValue

/-- The process environment variables the handler reads. A variable is
either unset (`none`) or set to a string (possibly empty). -/
structure Env where
  CLOUDFLARE_BACKEND : Option String
  INTERNAL_API_KEY : Option String

/-- Behaviour of the single outbound fetch: either the call itself rejects
(transport error, carrying the error message text), or the backend responds
with an HTTP status code and a body whose JSON parse either fails
(response.json() throws, carrying the parse error message) or yields a
value. -/
inductive FetchOutcome where
  | throws : String → FetchOutcome
  | responds : Nat → Except String JSValue → FetchOutcome

/-- JavaScript falsiness of an environment variable: unset (undefined) or
the empty string. -/
def envFalsy : Option String → Bool
  | none => true
  | some s => decide (s = "")

/-- JavaScript `v || d` on an environment variable. -/
def envOr : Option String → String → String
  | none, d => d
  | some s, d => if s = "" then d else s

/-- The hard-coded default backend base URL from the source. -/
def defaultBackendUrl : String := "https://agent-dark-pool.pulseradar.workers.dev"

/-- Response.ok of the fetch API: status in the inclusive range 200-299. -/
def statusOk (status : Nat) : Bool := decide (200 ≤ status) && decide (status ≤ 299)

/-- The outbound request the handler builds: POST to backendUrl/submit with
the content-type and internal-API-key headers and a JSON body holding
exactly the four validated input fields, re-serialized verbatim. The key
is non-empty here because the handler only builds the request after the
falsiness guard. -/
def outboundRequest (env : Env) (input : SubmissionRequest) : OutboundRequest :=
  ⟨envOr env.CLOUDFLARE_BACKEND defaultBackendUrl ++ "/submit",
   "POST",
   [("Content-Type", "application/json"),
    ("X-Internal-API-Key", env.INTERNAL_API_KEY.getD "")],
   JSValue.obj [("agent_id", JSValue.str input.agent_id),
                ("target_endpoint", JSValue.str input.target_endpoint),
                ("request_payload", input.request_payload),
                ("payment_amount", JSValue.str input.payment_amount)]⟩

/-- The body of the try block: awaits the fetch outcome, parses the body,
and interprets the response, with `Except.error` modelling a thrown
JavaScript exception (transport error, JSON parse error, or TypeError from
a property access on null). On a non-ok status the result takes the body's
`error` field or a generated status message; on an ok status the body's
fields are copied verbatim with a default message. -/
def tryForward (backend : FetchOutcome) : Except String HandlerReturn :=
  match backend with
  | FetchOutcome.throws m => Except.error m
  | FetchOutcome.responds status bodyResult =>
    match bodyResult with
    | Except.error m => Except.error m
    | Except.ok data =>
      if !(statusOk status) then
        match getField data "error" with
        | Except.error m => Except.error m
        | Except.ok errVal =>
          Except.ok ⟨⟨JSValue.bool false, JSValue.undef,
            jsOr errVal (JSValue.str ("Backend error: " ++ toString status)),
            JSValue.undef⟩, 10⟩
      else
        match getField data "success", getField data "transaction_id",
              getField data "message", getField data "estimated_execution" with
        | Except.ok sv, Except.ok tid, Except.ok msg, Except.ok ee =>
          Except.ok ⟨⟨sv, tid,
            jsOr msg (JSValue.str "Transaction submitted to dark pool"), ee⟩, 50⟩
        | Except.error m, _, _, _ => Except.error m
        | _, Except.error m, _, _ => Except.error m
        | _, _, Except.error m, _ => Except.error m
        | _, _, _, Except.error m => Except.error m

/-- The catch-all handler around the try block: any thrown error is mapped
to a failure result carrying the error message. -/
def catchWrap : Except String HandlerReturn → HandlerReturn
  | Except.ok r => r
  | Except.error m =>
      ⟨⟨JSValue.bool false, JSValue.undef,
        JSValue.str ("Failed to submit transaction: " ++ m), JSValue.undef⟩, 10⟩

/-- The submit entrypoint handler from src/index.ts, paired with the list
of outbound fetch calls it performs (zero or one). A falsy
INTERNAL_API_KEY short-circuits with the misconfiguration result and no
outbound call; otherwise exactly one fetch is issued and the try/catch
around it produces the result. -/
def handler (env : Env) (input : SubmissionRequest) (backend : FetchOutcome) :
    HandlerReturn × List OutboundRequest :=
  if envFalsy env.INTERNAL_API_KEY then
    (⟨⟨JSValue.bool false, JSValue.undef,
       JSValue.str "Service misconfigured: Missing API key", JSValue.undef⟩, 10⟩, [])
  else
    (catchWrap (tryForward backend), [outboundRequest env input])

/-- Digit test of the regex character class \d (the characters 0-9). -/
def digitChar (c : Char) : Bool := decide (48 ≤ c.toNat) && decide (c.toNat ≤ 57)

/-- Tail of the payment pattern after the integer part: a literal dot
followed by exactly two digits and the end of the string. -/
def fracTail : List Char → Bool
  | c :: a :: b :: [] => decide (c = '.') && digitChar a && digitChar b
  | _ => false

/-- The payment_amount regex from DarkPoolSubmitInputSchema (a greedy
digit run, then a dot and exactly two digits, anchored at both ends),
as a decision procedure on strings. -/
def paymentAmountPattern (s : String) : Bool :=
  !(s.data.takeWhile digitChar).isEmpty && fracTail (s.data.dropWhile digitChar)

/-- Declarative reading of the payment pattern taken from the spec text:
the string splits as a non-empty run of digits, a decimal point, and
exactly two fractional digits. -/
def PaymentPatternSpec (s : String) : Prop :=
  ∃ ds a b, s.data = ds ++ ['.', a, b] ∧ ds ≠ [] ∧
    (∀ c ∈ ds, digitChar c = true) ∧ digitChar a = true ∧ digitChar b = true

/-- Boolean test: the value is a JavaScript boolean. -/
def isBool : JSValue → Bool
  | JSValue.bool _ => true
  | _ => false

/-- Boolean test: the value is a JavaScript string. -/
def isStr : JSValue → Bool
  | JSValue.str _ => true
  | _ => false

/-- Structural validity of a result against DarkPoolSubmitOutputSchema's
mandatory fields: success is a boolean and message is a string. -/
def structurallyValid (r : SubmissionResult) : Bool :=
  isBool r.success && isStr r.message

/-- A success-status body is well typed when its success field is a
boolean and its message field, if truthy, is a string. -/
def okBodyGood (data : JSValue) : Prop :=
  isBool (lookupJS data "success") = true ∧
  (truthy (lookupJS data "message") = true → isStr (lookupJS data "message") = true)

/-- A failure-status body is well typed when its error field, if truthy,
is a string. -/
def errBodyGood (data : JSValue) : Prop :=
  truthy (lookupJS data "error") = true → isStr (lookupJS data "error") = true

/-- The backend behaviour delivers only well-typed parsed bodies (the
shape §6 of the spec expects of the backend); null and undefined bodies
are excepted because the handler's catch turns them into a generated
failure result. -/
def backendWellTyped (backend : FetchOutcome) : Prop :=
  ∀ status data, backend = FetchOutcome.responds status (Except.ok data) →
    data ≠ JSValue.null → data ≠ JSValue.undef →
    ((statusOk status = true → okBodyGood data) ∧
     (statusOk status = false → errBodyGood data))

/-- A concrete valid request used to instantiate theorems. -/
def sampleInput : SubmissionRequest :=
  ⟨"agent-1", "https://example.com/x402", JSValue.obj [], "10.00"⟩

/-- A concrete environment with the credential present. -/
def sampleEnv : Env := ⟨none, some "secret-key"⟩

/-- With a falsy credential the handler short-circuits. -/
lemma handler_of_falsy (env : Env) (input : SubmissionRequest) (backend : FetchOutcome)
    (h : envFalsy env.INTERNAL_API_KEY = true) :
    handler env input backend =
      (⟨⟨JSValue.bool false, JSValue.undef,
         JSValue.str "Service misconfigured: Missing API key", JSValue.undef⟩, 10⟩, []) := by
  simp [handler, h]

/-- With a truthy credential the handler issues the one outbound request
and wraps the try block in the catch. -/
lemma handler_of_present (env : Env) (input : SubmissionRequest) (backend : FetchOutcome)
    (h : envFalsy env.INTERNAL_API_KEY = false) :
    handler env input backend =
      (catchWrap (tryForward backend), [outboundRequest env input]) := by
  simp [handler, h]

/-- Property access on a receiver that is neither null nor undefined never
throws and yields the lookup. -/
lemma getField_of_ne (data : JSValue) (key : String)
    (h1 : data ≠ JSValue.null) (h2 : data ≠ JSValue.undef) :
    getField data key = Except.ok (lookupJS data key) := by
  cases data with
  | null => exact absurd rfl h1
  | undef => exact absurd rfl h2
  | bool b => rfl
  | num n => rfl
  | str s => rfl
  | arr xs => rfl
  | obj fs => rfl

/-- The try block on a success-status response with an accessible parsed
body copies the body fields verbatim, with a defaulted message, at 50
tokens. -/
lemma tryForward_ok_status (status : Nat) (data : JSValue)
    (hs : statusOk status = true)
    (h1 : data ≠ JSValue.null) (h2 : data ≠ JSValue.undef) :
    tryForward (FetchOutcome.responds status (Except.ok data)) =
      Except.ok ⟨⟨lookupJS data "success", lookupJS data "transaction_id",
        jsOr (lookupJS data "message") (JSValue.str "Transaction submitted to dark pool"),
        lookupJS data "estimated_execution"⟩, 50⟩ := by
  simp only [tryForward, hs, Bool.not_true, Bool.false_eq_true, if_false,
    getField_of_ne data _ h1 h2]

/-- The try block on a failure-status response with an accessible parsed
body produces the error-field-or-generated message at 10 tokens. -/
lemma tryForward_err_status (status : Nat) (data : JSValue)
    (hs : statusOk status = false)
    (h1 : data ≠ JSValue.null) (h2 : data ≠ JSValue.undef) :
    tryForward (FetchOutcome.responds status (Except.ok data)) =
      Except.ok ⟨⟨JSValue.bool false, JSValue.undef,
        jsOr (lookupJS data "error") (JSValue.str ("Backend error: " ++ toString status)),
        JSValue.undef⟩, 10⟩ := by
  simp only [tryForward, hs, Bool.not_false, if_true,
    getField_of_ne data _ h1 h2]

/-- A key that does not occur in an object literal looks up to undefined. -/
lemma lookupField_of_not_contains (fields : List (String × JSValue)) (key : String)
    (h : (fields.map Prod.fst).contains key = false) :
    lookupField fields key = JSValue.undef := by
  induction fields with
  | nil => rfl
  | cons kv rest ih =>
    obtain ⟨k, v⟩ := kv
    simp only [List.map_cons, List.contains_cons, Bool.or_eq_false_iff] at h
    obtain ⟨hk, hrest⟩ := h
    have hne : k ≠ key := by
      intro he
      subst he
      simp at hk
    simp [lookupField, hne, ih hrest]

lemma digitChar_dot : digitChar '.' = false := by decide

/-- Splitting a digit run followed by a dot under takeWhile/dropWhile. -/
lemma takeWhile_dropWhile_digits (ds rest : List Char)
    (hds : ∀ c ∈ ds, digitChar c = true) :
    (ds ++ '.' :: rest).takeWhile digitChar = ds ∧
    (ds ++ '.' :: rest).dropWhile digitChar = '.' :: rest := by
  induction ds with
  | nil =>
    constructor
    · simp [List.takeWhile_cons, digitChar_dot]
    · simp [List.dropWhile_cons, digitChar_dot]
  | cons c cs ih =>
    have hc : digitChar c = true := hds c (List.mem_cons_self _ _)
    have ih2 := ih (fun x hx => hds x (List.mem_cons_of_mem _ hx))
    constructor
    · simp [List.cons_append, List.takeWhile_cons, hc, ih2.1]
    · simp [List.cons_append, List.dropWhile_cons, hc, ih2.2]

/-- The executable payment pattern decides exactly the declarative
decomposition of the regex. -/
lemma paymentAmountPattern_iff (s : String) :
    paymentAmountPattern s = true ↔ PaymentPatternSpec s := by
  constructor
  · intro h
    unfold paymentAmountPattern at h
    rw [Bool.and_eq_true] at h
    obtain ⟨h1, h2⟩ := h
    have hsplit : s.data.takeWhile digitChar ++ s.data.dropWhile digitChar = s.data :=
      List.takeWhile_append_dropWhile digitChar s.data
    rcases hl : s.data.dropWhile digitChar with _ | ⟨c, _ | ⟨a, _ | ⟨b, _ | ⟨x, t⟩⟩⟩⟩ <;>
      rw [hl] at h2
    · simp [fracTail] at h2
    · simp [fracTail] at h2
    · simp [fracTail] at h2
    · rw [show fracTail [c, a, b] = (decide (c = '.') && digitChar a && digitChar b) from rfl,
        Bool.and_eq_true, Bool.and_eq_true, decide_eq_true_iff] at h2
      obtain ⟨⟨hc, ha⟩, hb⟩ := h2
      subst hc
      rw [hl] at hsplit
      refine ⟨s.data.takeWhile digitChar, a, b, ?_, ?_, ?_, ha, hb⟩
      · exact hsplit.symm
      · intro he
        rw [he] at h1
        simp at h1
      · intro x hx
        exact List.mem_takeWhile_imp hx
    · simp [fracTail] at h2
  · rintro ⟨ds, a, b, hsplit, hne, hds, ha, hb⟩
    have htw := takeWhile_dropWhile_digits ds [a, b] hds
    unfold paymentAmountPattern
    rw [hsplit, htw.1, htw.2]
    rw [show fracTail ['.', a, b] = (decide (('.' : Char) = '.') && digitChar a && digitChar b) from rfl]
    simp [ha, hb]
    cases ds with
    | nil => exact absurd rfl hne
    | cons x xs => simp

/-- Every JS value is null, undefined, or neither. -/
lemma jsvalue_null_undef_cases (data : JSValue) :
    data = JSValue.null ∨ data = JSValue.undef ∨
      (data ≠ JSValue.null ∧ data ≠ JSValue.undef) := by
  cases data with
  | null => exact Or.inl rfl
  | undef => exact Or.inr (Or.inl rfl)
  | bool b => exact Or.inr (Or.inr ⟨fun h => JSValue.noConfusion h, fun h => JSValue.noConfusion h⟩)
  | num n => exact Or.inr (Or.inr ⟨fun h => JSValue.noConfusion h, fun h => JSValue.noConfusion h⟩)
  | str s => exact Or.inr (Or.inr ⟨fun h => JSValue.noConfusion h, fun h => JSValue.noConfusion h⟩)
  | arr xs => exact Or.inr (Or.inr ⟨fun h => JSValue.noConfusion h, fun h => JSValue.noConfusion h⟩)
  | obj fs => exact Or.inr (Or.inr ⟨fun h => JSValue.noConfusion h, fun h => JSValue.noConfusion h⟩)

/-- Any failure-status response costs 10 tokens, whatever the body. -/
lemma catchWrap_tokens_err (status : Nat) (data : JSValue) (hs : statusOk status = false) :
    (catchWrap (tryForward (FetchOutcome.responds status (Except.ok data)))).total_tokens = 10 := by
  cases data <;> simp [tryForward, hs, getField, lookupJS, catchWrap]

/-- The handler's usage value is always 10 or 50. -/
lemma handler_tokens (env : Env) (input : SubmissionRequest) (backend : FetchOutcome) :
    (handler env input backend).1.total_tokens = 10 ∨
      (handler env input backend).1.total_tokens = 50 := by
  rcases Bool.eq_false_or_eq_true (envFalsy env.INTERNAL_API_KEY) with hk | hk
  · rw [handler_of_falsy env input backend hk]
    exact Or.inl rfl
  · rw [handler_of_present env input backend hk]
    cases backend with
    | throws m => exact Or.inl rfl
    | responds status bodyR =>
      cases bodyR with
      | error m => exact Or.inl rfl
      | ok data =>
        rcases Bool.eq_false_or_eq_true (statusOk status) with hs | hs
        · rcases jsvalue_null_undef_cases data with rfl | rfl | ⟨h1, h2⟩
          · exact Or.inl (by simp [tryForward, hs, getField, catchWrap])
          · exact Or.inl (by simp [tryForward, hs, getField, catchWrap])
          · refine Or.inr ?_
            rw [tryForward_ok_status status data hs h1 h2]
            rfl
        · exact Or.inl (catchWrap_tokens_err status data hs)

/-- The handler's usage value is 50 exactly on a completed forward: the
credential is truthy and the backend responded with a success status and
a parseable body other than null (or undefined). -/
lemma handler_tokens_50_iff (env : Env) (input : SubmissionRequest) (backend : FetchOutcome) :
    (handler env input backend).1.total_tokens = 50 ↔
      (envFalsy env.INTERNAL_API_KEY = false ∧
       ∃ status data, backend = FetchOutcome.responds status (Except.ok data) ∧
         statusOk status = true ∧ data ≠ JSValue.null ∧ data ≠ JSValue.undef) := by
  rcases Bool.eq_false_or_eq_true (envFalsy env.INTERNAL_API_KEY) with hk | hk
  · rw [handler_of_falsy env input backend hk]
    constructor
    · intro h; exact absurd (show (10 : Nat) = 50 from h) (by decide)
    · rintro ⟨hfalse, -⟩
      rw [hk] at hfalse
      exact Bool.noConfusion hfalse
  · rw [handler_of_present env input backend hk]
    cases backend with
    | throws m =>
      constructor
      · intro h; exact absurd (show (10 : Nat) = 50 from h) (by decide)
      · rintro ⟨-, status, data, h, -⟩; exact FetchOutcome.noConfusion h
    | responds status bodyR =>
      cases bodyR with
      | error m =>
        constructor
        · intro h; exact absurd (show (10 : Nat) = 50 from h) (by decide)
        · rintro ⟨-, st, d2, h, -⟩
          injection h with h1 h2
          exact Except.noConfusion h2
      | ok data =>
        rcases Bool.eq_false_or_eq_true (statusOk status) with hs | hs
        · rcases jsvalue_null_undef_cases data with rfl | rfl | ⟨h1, h2⟩
          · constructor
            · intro h
              rw [show (catchWrap (tryForward (FetchOutcome.responds status (Except.ok JSValue.null)))).total_tokens = 10 from by simp [tryForward, hs, getField, catchWrap]] at h
              exact absurd h (by decide)
            · rintro ⟨-, st, d2, h, -, hnull, -⟩
              injection h with ha hb
              injection hb with hc
              exact absurd hc.symm hnull
          · constructor
            · intro h
              rw [show (catchWrap (tryForward (FetchOutcome.responds status (Except.ok JSValue.undef)))).total_tokens = 10 from by simp [tryForward, hs, getField, catchWrap]] at h
              exact absurd h (by decide)
            · rintro ⟨-, st, d2, h, -, -, hundef⟩
              injection h with ha hb
              injection hb with hc
              exact absurd hc.symm hundef
          · refine iff_of_true ?_ ⟨hk, status, data, rfl, hs, h1, h2⟩
            rw [tryForward_ok_status status data hs h1 h2]
            rfl
        · rw [catchWrap_tokens_err status data hs]
          constructor
          · intro h; exact absurd h (by decide)
          · rintro ⟨-, st, d2, h, hs2, -⟩
            injection h with h1 h2
            rw [← h1] at hs2
            exact Bool.noConfusion (hs.symm.trans hs2)

/-- On a well-typed backend the handler's output always satisfies the
mandatory output schema: boolean success and string message. -/
lemma handler_shape (env : Env) (input : SubmissionRequest) (backend : FetchOutcome) :
    backendWellTyped backend →
      structurallyValid (handler env input backend).1.output = true := by
  intro hw
  rcases Bool.eq_false_or_eq_true (envFalsy env.INTERNAL_API_KEY) with hk | hk
  · rw [handler_of_falsy env input backend hk]
    rfl
  · rw [handler_of_present env input backend hk]
    cases backend with
    | throws m => rfl
    | responds status bodyR =>
      cases bodyR with
      | error m => rfl
      | ok data =>
        rcases Bool.eq_false_or_eq_true (statusOk status) with hs | hs
        · rcases jsvalue_null_undef_cases data with rfl | rfl | ⟨h1, h2⟩
          · simp [tryForward, hs, getField, catchWrap, structurallyValid, isBool, isStr]
          · simp [tryForward, hs, getField, catchWrap, structurallyValid, isBool, isStr]
          · rw [tryForward_ok_status status data hs h1 h2]
            obtain ⟨hsb, hmsg⟩ := (hw status data rfl h1 h2).1 hs
            rcases Bool.eq_false_or_eq_true (truthy (lookupJS data "message")) with ht | ht
            · have hstr := hmsg ht
              have hj : jsOr (lookupJS data "message")
                  (JSValue.str "Transaction submitted to dark pool") = lookupJS data "message" := by
                simp [jsOr, ht]
              simp [catchWrap, structurallyValid, hj, hsb, hstr]
            · have hj : jsOr (lookupJS data "message")
                  (JSValue.str "Transaction submitted to dark pool") =
                  JSValue.str "Transaction submitted to dark pool" := by
                simp [jsOr, ht]
              simp [catchWrap, structurallyValid, hj, hsb, isStr]
        · rcases jsvalue_null_undef_cases data with rfl | rfl | ⟨h1, h2⟩
          · simp [tryForward, hs, getField, catchWrap, structurallyValid, isBool, isStr]
          · simp [tryForward, hs, getField, catchWrap, structurallyValid, isBool, isStr]
          · rw [tryForward_err_status status data hs h1 h2]
            have herr := (hw status data rfl h1 h2).2 hs
            rcases Bool.eq_false_or_eq_true (truthy (lookupJS data "error")) with ht | ht
            · have hstr := herr ht
              have hj : jsOr (lookupJS data "error")
                  (JSValue.str ("Backend error: " ++ toString status)) = lookupJS data "error" := by
                simp [jsOr, ht]
              simp [catchWrap, structurallyValid, hj, hstr, isBool]
            · have hj : jsOr (lookupJS data "error")
                  (JSValue.str ("Backend error: " ++ toString status)) =
                  JSValue.str ("Backend error: " ++ toString status) := by
                simp [jsOr, ht]
              simp [catchWrap, structurallyValid, hj, isBool, isStr]

/-- Claim C1 (amended): for every valid request and every behaviour of the
backend the handler never throws; it always terminates with a result
paired with a usage value of 10 or 50, and whenever the backend delivers
only well-typed parsed bodies (boolean success field and string-typed
truthy message/error fields) the result is structurally valid: a boolean
success and a string message. -/
theorem handler_never_throws (env : Env) (input : SubmissionRequest) (backend : FetchOutcome) :
    ((handler env input backend).1.total_tokens = 10 ∨
      (handler env input backend).1.total_tokens = 50) ∧
    (backendWellTyped backend →
      structurallyValid (handler env input backend).1.output = true) :=
  ⟨handler_tokens env input backend, handler_shape env input backend⟩

/-- Witness for C1 at a concrete transport failure. -/
theorem handler_never_throws_witness :
    backendWellTyped (FetchOutcome.throws "ECONNREFUSED") ∧
    structurallyValid (handler sampleEnv sampleInput
        (FetchOutcome.throws "ECONNREFUSED")).1.output = true := by
  have hw : backendWellTyped (FetchOutcome.throws "ECONNREFUSED") :=
    fun status data h => FetchOutcome.noConfusion h
  exact ⟨hw, (handler_never_throws sampleEnv sampleInput
    (FetchOutcome.throws "ECONNREFUSED")).2 hw⟩

/-- Counterexample to C1 as stated: a success-status response whose JSON
object body lacks a success field yields an output whose success field is
not a boolean, so the result is not structurally valid. -/
theorem handler_structural_validity_counterexample :
    structurallyValid (handler sampleEnv sampleInput
        (FetchOutcome.responds 200 (Except.ok (JSValue.obj [])))).1.output = false := rfl

/-- Claim C2: with the internal API key absent from the environment the
handler returns exactly the misconfiguration failure result (success
false, the fixed message, usage 10) and performs zero outbound calls. -/
theorem missing_api_key_short_circuits (cb : Option String)
    (input : SubmissionRequest) (backend : FetchOutcome) :
    handler ⟨cb, none⟩ input backend =
      (⟨⟨JSValue.bool false, JSValue.undef,
         JSValue.str "Service misconfigured: Missing API key", JSValue.undef⟩, 10⟩, []) :=
  handler_of_falsy _ _ _ rfl

/-- Claim C3: when the outbound call itself throws a transport error with
text e, the handler catches it and returns success false with the message
"Failed to submit transaction: " followed by e; nothing propagates. -/
theorem transport_error_mapped (cb : Option String) (key : String)
    (input : SubmissionRequest) (e : String) (hk : key ≠ "") :
    (handler ⟨cb, some key⟩ input (FetchOutcome.throws e)).1 =
      ⟨⟨JSValue.bool false, JSValue.undef,
        JSValue.str ("Failed to submit transaction: " ++ e), JSValue.undef⟩, 10⟩ := by
  rw [handler_of_present _ _ _ (by simp [envFalsy, hk])]
  rfl

/-- Witness for C3 with a connection-refused error. -/
theorem transport_error_mapped_witness :
    ("secret-key" : String) ≠ "" ∧
    (handler ⟨none, some "secret-key"⟩ sampleInput (FetchOutcome.throws "ECONNREFUSED")).1 =
      ⟨⟨JSValue.bool false, JSValue.undef,
        JSValue.str "Failed to submit transaction: ECONNREFUSED", JSValue.undef⟩, 10⟩ :=
  ⟨by decide, transport_error_mapped none "secret-key" sampleInput "ECONNREFUSED" (by decide)⟩

/-- Claim C4 (amended): on a non-success status with a parsed JSON body
other than null, the handler returns success false and a message equal to
the body's error field when that field is present and truthy, else the
generated "Backend error: <status>" text, at usage 10. -/
theorem backend_error_message (env : Env) (input : SubmissionRequest)
    (status : Nat) (data : JSValue)
    (hk : envFalsy env.INTERNAL_API_KEY = false) (hs : statusOk status = false)
    (h1 : data ≠ JSValue.null) (h2 : data ≠ JSValue.undef) :
    (handler env input (FetchOutcome.responds status (Except.ok data))).1 =
      ⟨⟨JSValue.bool false, JSValue.undef,
        jsOr (lookupJS data "error") (JSValue.str ("Backend error: " ++ toString status)),
        JSValue.undef⟩, 10⟩ := by
  rw [handler_of_present _ _ _ hk, tryForward_err_status status data hs h1 h2]
  rfl

/-- Witness for C4 with the spec's 503/overloaded example. -/
theorem backend_error_message_witness :
    statusOk 503 = false ∧
    (handler sampleEnv sampleInput (FetchOutcome.responds 503
        (Except.ok (JSValue.obj [("error", JSValue.str "overloaded")])))).1 =
      ⟨⟨JSValue.bool false, JSValue.undef, JSValue.str "overloaded", JSValue.undef⟩, 10⟩ :=
  ⟨by decide, backend_error_message sampleEnv sampleInput 503 _ (by decide) (by decide)
    (fun h => JSValue.noConfusion h) (fun h => JSValue.noConfusion h)⟩

/-- Counterexample to C4 as stated: a present-but-empty error field is not
echoed; the generated status message is returned instead. -/
theorem backend_error_empty_counterexample :
    lookupField [("error", JSValue.str "")] "error" = JSValue.str "" ∧
    (handler sampleEnv sampleInput (FetchOutcome.responds 503
        (Except.ok (JSValue.obj [("error", JSValue.str "")])))).1.output.message
      = JSValue.str "Backend error: 503" ∧
    ("Backend error: 503" : String) ≠ "" :=
  ⟨rfl, rfl, by decide⟩

/-- Claim C5 (amended): on a success status with a JSON object body the
result copies the body's success, transaction_id and estimated_execution
fields verbatim, and its message is the body's message field when present
and truthy, else the default text, at usage 50. -/
theorem success_passthrough (env : Env) (input : SubmissionRequest)
    (status : Nat) (fields : List (String × JSValue))
    (hk : envFalsy env.INTERNAL_API_KEY = false) (hs : statusOk status = true) :
    (handler env input (FetchOutcome.responds status (Except.ok (JSValue.obj fields)))).1 =
      ⟨⟨lookupField fields "success", lookupField fields "transaction_id",
        jsOr (lookupField fields "message") (JSValue.str "Transaction submitted to dark pool"),
        lookupField fields "estimated_execution"⟩, 50⟩ := by
  rw [handler_of_present _ _ _ hk, tryForward_ok_status status _ hs
    (fun h => JSValue.noConfusion h) (fun h => JSValue.noConfusion h)]
  rfl

/-- Witness for C5 with the spec's 200 example body. -/
theorem success_passthrough_witness :
    statusOk 200 = true ∧
    (handler sampleEnv sampleInput (FetchOutcome.responds 200
        (Except.ok (JSValue.obj [("success", JSValue.bool true),
          ("transaction_id", JSValue.str "tx123"),
          ("estimated_execution", JSValue.str "30s")])))).1 =
      ⟨⟨JSValue.bool true, JSValue.str "tx123",
        JSValue.str "Transaction submitted to dark pool", JSValue.str "30s"⟩, 50⟩ :=
  ⟨by decide, success_passthrough sampleEnv sampleInput 200 _ (by decide) (by decide)⟩

/-- Counterexample to C5 as stated: a present-but-empty message field is
not copied; the default message is substituted. -/
theorem success_message_empty_counterexample :
    lookupField [("success", JSValue.bool true), ("message", JSValue.str "")] "message"
        = JSValue.str "" ∧
    (handler sampleEnv sampleInput (FetchOutcome.responds 200
        (Except.ok (JSValue.obj [("success", JSValue.bool true),
          ("message", JSValue.str "")])))).1.output.message
      = JSValue.str "Transaction submitted to dark pool" ∧
    ("Transaction submitted to dark pool" : String) ≠ "" :=
  ⟨rfl, rfl, by decide⟩

/-- Claim C6: whenever the credential is truthy the handler issues exactly
one outbound POST to backendBaseUrl/submit whose headers are the JSON
content type and the internal API key header, and whose body holds exactly
the four validated input fields, serialized verbatim. -/
theorem outbound_request_exact (env : Env) (input : SubmissionRequest)
    (backend : FetchOutcome) (hk : envFalsy env.INTERNAL_API_KEY = false) :
    (handler env input backend).2 =
      [⟨envOr env.CLOUDFLARE_BACKEND defaultBackendUrl ++ "/submit", "POST",
        [("Content-Type", "application/json"),
         ("X-Internal-API-Key", env.INTERNAL_API_KEY.getD "")],
        JSValue.obj [("agent_id", JSValue.str input.agent_id),
                     ("target_endpoint", JSValue.str input.target_endpoint),
                     ("request_payload", input.request_payload),
                     ("payment_amount", JSValue.str input.payment_amount)]⟩] := by
  rw [handler_of_present _ _ _ hk]
  rfl

/-- Witness for C6 at a concrete environment and input. -/
theorem outbound_request_exact_witness :
    envFalsy sampleEnv.INTERNAL_API_KEY = false ∧
    (handler sampleEnv sampleInput (FetchOutcome.throws "boom")).2 =
      [⟨"https://agent-dark-pool.pulseradar.workers.dev/submit", "POST",
        [("Content-Type", "application/json"), ("X-Internal-API-Key", "secret-key")],
        JSValue.obj [("agent_id", JSValue.str "agent-1"),
                     ("target_endpoint", JSValue.str "https://example.com/x402"),
                     ("request_payload", JSValue.obj []),
                     ("payment_amount", JSValue.str "10.00")]⟩] :=
  ⟨by decide, outbound_request_exact sampleEnv sampleInput (FetchOutcome.throws "boom") (by decide)⟩

/-- Claim C7: the payment_amount validator accepts a string iff it splits
as a non-empty digit run, a decimal point and exactly two digits (the
anchored regex), and in particular rejects "10", "10.5", "10.000" and the
sign-prefixed "-5.00" while accepting "10.00". -/
theorem payment_amount_validation :
    (∀ s : String, paymentAmountPattern s = true ↔ PaymentPatternSpec s) ∧
    paymentAmountPattern "10" = false ∧
    paymentAmountPattern "10.5" = false ∧
    paymentAmountPattern "10.000" = false ∧
    paymentAmountPattern "-5.00" = false ∧
    paymentAmountPattern "10.00" = true :=
  ⟨paymentAmountPattern_iff, by decide, by decide, by decide, by decide, by decide⟩

/-- Witness for C7: the accepted example satisfies the declarative
pattern. -/
theorem payment_amount_validation_witness : PaymentPatternSpec "10.00" :=
  (payment_amount_validation.1 "10.00").mp (by decide)

/-- Claim C8 (amended): every invocation yields a usage value of 10 or 50,
and the value is 50 exactly when the credential is truthy and the backend
responded with a success status and a parseable JSON body other than null;
all other paths (missing credential, transport failure, unparseable body,
non-success status, success status with null body) yield 10. -/
theorem usage_accounting (env : Env) (input : SubmissionRequest) (backend : FetchOutcome) :
    ((handler env input backend).1.total_tokens = 10 ∨
      (handler env input backend).1.total_tokens = 50) ∧
    ((handler env input backend).1.total_tokens = 50 ↔
      (envFalsy env.INTERNAL_API_KEY = false ∧
       ∃ status data, backend = FetchOutcome.responds status (Except.ok data) ∧
         statusOk status = true ∧ data ≠ JSValue.null ∧ data ≠ JSValue.undef)) :=
  ⟨handler_tokens env input backend, handler_tokens_50_iff env input backend⟩

/-- Witness for C8: a completed forward costs 50 tokens. -/
theorem usage_accounting_witness :
    (handler sampleEnv sampleInput (FetchOutcome.responds 200
        (Except.ok (JSValue.obj [("success", JSValue.bool true)])))).1.total_tokens = 50 :=
  (usage_accounting sampleEnv sampleInput _).2.mpr
    ⟨by decide, 200, _, rfl, by decide,
     fun h => JSValue.noConfusion h, fun h => JSValue.noConfusion h⟩

/-- Counterexample to C8 as stated: a success-status response whose body
is JSON null is a completed forward per the claim but costs 10, not 50. -/
theorem usage_success_status_counterexample :
    statusOk 200 = true ∧
    (handler sampleEnv sampleInput
        (FetchOutcome.responds 200 (Except.ok JSValue.null))).1.total_tokens = 10 ∧
    (handler sampleEnv sampleInput
        (FetchOutcome.responds 200 (Except.ok JSValue.null))).1.total_tokens ≠ 50 :=
  ⟨by decide, rfl, by decide⟩

/-- Claim C9: on a success status with a JSON object body that lacks a
success field, the handler copies the missing value verbatim: the returned
success field is undefined, not a boolean. -/
theorem success_field_missing_passthrough (env : Env) (input : SubmissionRequest)
    (status : Nat) (fields : List (String × JSValue))
    (hk : envFalsy env.INTERNAL_API_KEY = false) (hs : statusOk status = true)
    (hf : (fields.map Prod.fst).contains "success" = false) :
    (handler env input (FetchOutcome.responds status
        (Except.ok (JSValue.obj fields)))).1.output.success = JSValue.undef ∧
    isBool (handler env input (FetchOutcome.responds status
        (Except.ok (JSValue.obj fields)))).1.output.success = false := by
  have hlk : lookupField fields "success" = JSValue.undef :=
    lookupField_of_not_contains fields "success" hf
  rw [handler_of_present _ _ _ hk, tryForward_ok_status status _ hs
    (fun h => JSValue.noConfusion h) (fun h => JSValue.noConfusion h)]
  constructor
  · show lookupJS (JSValue.obj fields) "success" = JSValue.undef
    simp [lookupJS, hlk]
  · show isBool (lookupJS (JSValue.obj fields) "success") = false
    simp [lookupJS, hlk, isBool]

/-- Witness for C9 with a body holding only a transaction id. -/
theorem success_field_missing_passthrough_witness :
    envFalsy sampleEnv.INTERNAL_API_KEY = false ∧ statusOk 200 = true ∧
    (([(("transaction_id" : String), JSValue.str "tx1")].map Prod.fst).contains "success"
        = false) ∧
    (handler sampleEnv sampleInput (FetchOutcome.responds 200
        (Except.ok (JSValue.obj [("transaction_id", JSValue.str "tx1")])))).1.output.success
      = JSValue.undef :=
  ⟨by decide, by decide, by decide,
   (success_field_missing_passthrough sampleEnv sampleInput 200
     [("transaction_id", JSValue.str "tx1")] (by decide) (by decide) (by decide)).1⟩

/-- Claim C10: a backend error or message field that is present but equal
to the empty string is coalesced away like an absent field: the generated
default text is returned, and that default is never the empty string. -/
theorem empty_backend_message_defaulted (env : Env) (input : SubmissionRequest)
    (s1 s2 : Nat) (f1 f2 : List (String × JSValue))
    (hk : envFalsy env.INTERNAL_API_KEY = false)
    (hs1 : statusOk s1 = false) (he : lookupField f1 "error" = JSValue.str "")
    (hs2 : statusOk s2 = true) (hm : lookupField f2 "message" = JSValue.str "") :
    ((handler env input (FetchOutcome.responds s1 (Except.ok (JSValue.obj f1)))).1.output.message
        = JSValue.str ("Backend error: " ++ toString s1)) ∧
    ("Backend error: " ++ toString s1) ≠ "" ∧
    ((handler env input (FetchOutcome.responds s2 (Except.ok (JSValue.obj f2)))).1.output.message
        = JSValue.str "Transaction submitted to dark pool") ∧
    ("Transaction submitted to dark pool" : String) ≠ "" := by
  refine ⟨?_, ?_, ?_, by decide⟩
  · rw [handler_of_present _ _ _ hk, tryForward_err_status s1 _ hs1
      (fun h => JSValue.noConfusion h) (fun h => JSValue.noConfusion h)]
    show jsOr (lookupJS (JSValue.obj f1) "error")
        (JSValue.str ("Backend error: " ++ toString s1)) = _
    simp [lookupJS, he, jsOr, truthy]
  · intro h
    have h2 : ("Backend error: " : String).length + (toString s1).length
        = ("" : String).length := by
      rw [← String.length_append, h]
    rw [show ("Backend error: " : String).length = 15 from by decide,
        show ("" : String).length = 0 from by decide] at h2
    omega
  · rw [handler_of_present _ _ _ hk, tryForward_ok_status s2 _ hs2
      (fun h => JSValue.noConfusion h) (fun h => JSValue.noConfusion h)]
    show jsOr (lookupJS (JSValue.obj f2) "message")
        (JSValue.str "Transaction submitted to dark pool") = _
    simp [lookupJS, hm, jsOr, truthy]

/-- Witness for C10 at concrete 503 and 200 responses with empty fields. -/
theorem empty_backend_message_defaulted_witness :
    (handler sampleEnv sampleInput (FetchOutcome.responds 503
        (Except.ok (JSValue.obj [("error", JSValue.str "")])))).1.output.message
      = JSValue.str "Backend error: 503" ∧
    (handler sampleEnv sampleInput (FetchOutcome.responds 200
        (Except.ok (JSValue.obj [("message", JSValue.str "")])))).1.output.message
      = JSValue.str "Transaction submitted to dark pool" := by
  have h := empty_backend_message_defaulted sampleEnv sampleInput 503 200
    [("error", JSValue.str "")] [("message", JSValue.str "")]
    (by decide) (by decide) rfl (by decide) rfl
  exact ⟨h.1, h.2.2.1⟩
